import Mathlib

/-!
Verification development for the autoclicker core of `autoclicker.py`
(mjmann1999/Word_App).

Durations are modelled as rational numbers of seconds (`ℚ`); where a wait
loop polls in 1 ms increments we use discrete time in milliseconds (`ℕ`).
Stateful Python code is modelled by explicit state passing; exceptions by
`Except`/`Option`.
-/

namespace AutoClicker

/-- The `ClickSettings` dataclass (autoclicker.py lines 84-96).
Field names follow the source; durations in seconds as `ℚ`. -/
structure ClickSettings where
  interval : ℚ := 1/10
  randomize : Bool := false
  random_range : ℚ := 0
  button : String := "left"
  click_type : String := "single"
  start_delay : ℚ := 0
  run_duration : ℚ := 0
  burst_count : ℕ := 0
  hold_duration : ℚ := 0
  follow_cursor : Bool := true
  fixed_position : ℤ × ℤ := (0, 0)
deriving DecidableEq, Repr

/-- The scheduler's mutable fields of the `AutoClicker` object
(`_is_running`, `_stop_event`, whether a run thread was spawned) plus
counters of observer-callback invocations, so that "`OnStart` fired" is
observable in the model. -/
structure Sched where
  isRunning : Bool
  stopEvent : Bool
  threadSpawned : Bool
  startCalls : ℕ
  stopCalls : ℕ
deriving DecidableEq, Repr

/-- `AutoClicker.start` (lines 114-130), sequential semantics.
The settings provider is modelled as `Option ClickSettings`: `none` when
`self._settings_provider()` raises.  The code sets `_is_running := True`,
clears the stop event, then calls the provider; on an exception it resets
`_is_running := False` and returns without spawning a thread or invoking
the start callback; on success it spawns the run thread and invokes the
start callback. -/
def start (provider : Option ClickSettings) (s : Sched) : Sched :=
  if s.isRunning then s
  else
    let s1 := { s with isRunning := true, stopEvent := false }
    match provider with
    | none => { s1 with isRunning := false }
    | some _cfg => { s1 with threadSpawned := true, startCalls := s1.startCalls + 1 }

/-- `AutoClicker.stop` (lines 132-141), sequential semantics: no-op when
idle; otherwise flips `_is_running` to false and sets the stop event
(the join of the run thread has no effect on these fields). -/
def stop (s : Sched) : Sched :=
  if s.isRunning then { s with isRunning := false, stopEvent := true } else s

/-- `AutoClicker.toggle` (lines 143-147): `stop` if running else `start`. -/
def toggle (provider : Option ClickSettings) (s : Sched) : Sched :=
  if s.isRunning then stop s else start provider s

/-- One execution of the `while` loop of `AutoClicker._run`
(lines 168-191), counting tick-actions.

* `cancelled k` — whether `self._stop_event.is_set()` holds when iteration
  `k` performs its check at the top of the loop (an external `stop` may set
  it at any point, in particular during the inter-tick wait);
* `elapsedAt k` — the value of `time.monotonic() - start_time` at iteration
  `k`'s duration check;
* `fuel` — an upper bound on the number of iterations examined (the Python
  loop is unbounded; `none` means the loop has not exited within `fuel`
  iterations);
* `c` — `clicks_performed` so far.

Each iteration that passes both checks performs one tick-action
(`_perform_click`) and increments the counter before the burst-limit
check, exactly as in the source. -/
def runLoopAux (s : ClickSettings) (cancelled : ℕ → Bool) (elapsedAt : ℕ → ℚ) :
    ℕ → ℕ → ℕ → Option ℕ
  | 0, _, _ => none
  | fuel + 1, k, c =>
    if cancelled k then some c
    else if 0 < s.run_duration ∧ s.run_duration ≤ elapsedAt k then some c
    else if 0 < s.burst_count ∧ s.burst_count ≤ c + 1 then some (c + 1)
    else runLoopAux s cancelled elapsedAt fuel (k + 1) (c + 1)

/-- Observable outcome of one complete `_run` execution. -/
structure RunOutcome where
  clicks : ℕ
  stopEventSet : Bool
  isRunning : Bool
  stopCallbackCalls : ℕ
deriving DecidableEq, Repr

/-- `AutoClicker._run` (lines 161-202): the loop followed by the exit
sequence of lines 193-200, which unconditionally sets the stop event,
flips `_is_running` to false, and invokes the stop callback (when one is
registered) exactly once.  Returns `none` when the loop has not exited
within `fuel` iterations. -/
def runFull (s : ClickSettings) (cancelled : ℕ → Bool) (elapsedAt : ℕ → ℚ)
    (fuel : ℕ) (hasStopCb : Bool) : Option RunOutcome :=
  match runLoopAux s cancelled elapsedAt fuel 0 0 with
  | none => none
  | some c => some ⟨c, true, false, if hasStopCb then 1 else 0⟩

/-- The cancellation-polling wait pattern of `_run` lines 189-191 (the
inter-tick wait) and of `_perform_click` lines 226-228 (the hold-duration
wait): `while not self._stop_event.is_set() and time.monotonic() < end_time:
time.sleep(0.001)`.  Discrete 1 ms time steps: `cancelled t` is whether the
stop event is set at millisecond `t`; the wait starts at time `t`, has
`remaining` milliseconds until `end_time`, and the result is the time at
which the loop exits. -/
def pollWait (cancelled : ℕ → Bool) : ℕ → ℕ → ℕ
  | 0, t => t
  | remaining + 1, t => if cancelled t then t else pollWait cancelled remaining (t + 1)

/-- The start-delay wait of `_run` lines 162-163: a single
`time.sleep(settings.start_delay)` that never consults the stop event, so
it always sleeps the full duration `durMs` milliseconds regardless of the
cancellation signal.  It exits at time `durMs`. -/
def startDelayWait (_cancelled : ℕ → Bool) (durMs : ℕ) : ℕ :=
  durMs

/-- The per-tick wait computation of `_run` lines 183-186:
`interval = settings.interval`, and when `settings.randomize` and
`settings.random_range > 0`, `interval = max(0.005, settings.interval +
offset)` where `offset` is drawn from `uniform(-random_range,
random_range)`. -/
def tickWait (s : ClickSettings) (offset : ℚ) : ℚ :=
  if s.randomize = true ∧ 0 < s.random_range then
    max (5/1000) (s.interval + offset)
  else s.interval

/-- Modelled from the spec's words (section 3, `jitter`), for comparison
with `tickWait`: "each tick's wait time is `interval + uniform(-jitter,
+jitter)`, re-clamped to the epsilon floor", the epsilon floor being the
1 ms minimum of `interval`. -/
def specTickWait (s : ClickSettings) (offset : ℚ) : ℚ :=
  if s.randomize = true ∧ 0 < s.random_range then
    max (1/1000) (s.interval + offset)
  else s.interval

/-- The interval clamp applied by `AutoClickerApp._collect_settings`
(line 502): `interval=max(0.001, interval)`. -/
def clampInterval (raw : ℚ) : ℚ :=
  max (1/1000) raw

/-- Association-list lookup with decidable string equality, modelling
Python `dict` lookup / `in` tests. -/
def assocLookup {α : Type} : List (String × α) → String → Option α
  | [], _ => none
  | (k, v) :: rest, key => if k = key then some v else assocLookup rest key

/-- Python `dict` assignment `d[k] = v`: overwrite in place when the key
exists (keeping its position), else append. -/
def pyInsert {α : Type} : List (String × α) → String → α → List (String × α)
  | [], k, v => [(k, v)]
  | (k', v') :: rest, k, v =>
    if k' = k then (k', v) :: rest else (k', v') :: pyInsert rest k v

/-- `BUTTON_EVENT_MAP` (lines 37-41), keeping only the numeric button
code; the Quartz event-type constants are opaque platform values. -/
def BUTTON_EVENT_MAP : List (String × ℕ) :=
  [("left", 0), ("right", 1), ("middle", 2)]

/-- `CLICK_MULTIPLIER` (lines 43-47). -/
def CLICK_MULTIPLIER : List (String × ℕ) :=
  [("single", 1), ("double", 2), ("triple", 3)]

/-- `AutoClicker._perform_click` (lines 204-211): raises `ValueError` when
`settings.button` is not a key of `BUTTON_EVENT_MAP`; otherwise performs
`CLICK_MULTIPLIER.get(settings.click_type, 1)` press+release occurrences.
The result is the number of occurrences performed in the tick. -/
def performClick (s : ClickSettings) : Except String ℕ :=
  match assocLookup BUTTON_EVENT_MAP s.button with
  | none => Except.error ("Unsupported button " ++ s.button)
  | some _buttonCode => Except.ok ((assocLookup CLICK_MULTIPLIER s.click_type).getD 1)

/-- `SPECIAL_KEY_ALIASES` (lines 49-81). -/
def SPECIAL_KEY_ALIASES : List (String × String) :=
  [("cmd", "<cmd>"), ("command", "<cmd>"), ("⌘", "<cmd>"),
   ("ctrl", "<ctrl>"), ("control", "<ctrl>"), ("⌃", "<ctrl>"),
   ("alt", "<alt>"), ("option", "<alt>"), ("⌥", "<alt>"),
   ("shift", "<shift>"), ("⇧", "<shift>"),
   ("enter", "<enter>"), ("return", "<enter>"),
   ("space", "<space>"), ("spacebar", "<space>"),
   ("tab", "<tab>"), ("capslock", "<caps_lock>"),
   ("esc", "<esc>"), ("escape", "<esc>"),
   ("f1", "<f1>"), ("f2", "<f2>"), ("f3", "<f3>"), ("f4", "<f4>"),
   ("f5", "<f5>"), ("f6", "<f6>"), ("f7", "<f7>"), ("f8", "<f8>"),
   ("f9", "<f9>"), ("f10", "<f10>"), ("f11", "<f11>"), ("f12", "<f12>")]

/-- The action a hotkey binding dispatches to. -/
inductive HotkeyAction where
  | startAct
  | stopAct
  | toggleAct
deriving DecidableEq, Repr

/-- Python `str.lower()` (ASCII case folding suffices for the chord
grammar). -/
def strLower (s : String) : String :=
  String.mk (s.data.map Char.toLower)

/-- Python `combo.replace("-", "+")` for the single-character pattern used
at line 291. -/
def pyReplaceDash (s : String) : String :=
  String.mk (s.data.map (fun c => if c = '-' then '+' else c))

/-- Python `str.strip()`: drop leading and trailing whitespace. -/
def pyStrip (s : String) : String :=
  String.mk (((s.data.dropWhile Char.isWhitespace).reverse.dropWhile
    Char.isWhitespace).reverse)

/-- Python `str.split(sep)` for a single-character separator (adjacent
separators yield empty parts, as in Python). -/
def pySplit (sep : Char) (s : String) : List String :=
  (s.data.splitOn sep).map String.mk

/-- Python `"+".join(parts)` (line 303). -/
def pyJoinPlus : List String → String
  | [] => ""
  | [s] => s
  | s :: rest => s ++ "+" ++ pyJoinPlus rest

/-- `HotkeyManager._format_combo` (lines 290-310): split the raw combo on
`+`/`-`, strip and lowercase each part, drop empty parts; empty result is
a `HotkeyError`; map alias names through `SPECIAL_KEY_ALIASES`, keep
single characters, and wrap anything else in angle brackets.  The final
validation step builds a `pynput` `GlobalHotKeys` instance, an external
collaborator; it is modelled by the predicate `hookOk` on the formatted
chord, failure raising `HotkeyError` exactly as in the source. -/
def formatCombo (hookOk : String → Bool) (combo : String) : Except String String :=
  let parts := (pySplit '+' (pyReplaceDash combo)).filterMap
    (fun part => if pyStrip part = "" then none else some (strLower (pyStrip part)))
  if parts = [] then Except.error "Hotkey cannot be empty"
  else
    let parsed := parts.map (fun part =>
      match assocLookup SPECIAL_KEY_ALIASES part with
      | some canon => canon
      | none => if part.length = 1 then part else "<" ++ part ++ ">")
    let formatted := pyJoinPlus parsed
    if hookOk formatted then Except.ok formatted
    else Except.error ("Invalid hotkey " ++ combo)

/-- `HotkeyManager.update` (lines 267-277): formats the three combos in
order (start, stop, toggle) into a fresh dict; any `HotkeyError` raised by
`_format_combo` propagates before `self.current_bindings` is assigned.
On success the new dict wholesale replaces the old bindings. -/
def update (hookOk : String → Bool) (startCombo stopCombo toggleCombo : String) :
    Except String (List (String × HotkeyAction)) :=
  match formatCombo hookOk startCombo with
  | Except.error e => Except.error e
  | Except.ok f1 =>
    match formatCombo hookOk stopCombo with
    | Except.error e => Except.error e
    | Except.ok f2 =>
      match formatCombo hookOk toggleCombo with
      | Except.error e => Except.error e
      | Except.ok f3 =>
        Except.ok (pyInsert (pyInsert (pyInsert [] f1 HotkeyAction.startAct)
          f2 HotkeyAction.stopAct) f3 HotkeyAction.toggleAct)

/-- The effect of `HotkeyManager.update` on `self.current_bindings`: when
`_format_combo` raises, the exception propagates and the previous bindings
are left untouched; otherwise the new dict replaces them. -/
def applyUpdate (hookOk : String → Bool) (current : List (String × HotkeyAction))
    (startCombo stopCombo toggleCombo : String) : List (String × HotkeyAction) :=
  match update hookOk startCombo stopCombo toggleCombo with
  | Except.error _ => current
  | Except.ok b => b

/-- The initial `current_bindings` of `HotkeyManager.__init__`
(lines 260-264). -/
def defaultBindings : List (String × HotkeyAction) :=
  [("<cmd>+<alt>+s", HotkeyAction.startAct),
   ("<cmd>+<alt>+x", HotkeyAction.stopAct),
   ("<cmd>+<alt>+z", HotkeyAction.toggleAct)]

/-- The state shared between `AutoClickerApp` and an active run.
`_collect_settings` (lines 489-515) builds a `ClickSettings` object,
assigns it to `self.settings`, and returns the same object; `start` passes
that object to the run thread.  Hence during a run, `self.settings` and
the `settings` argument of `_run` are the SAME mutable Python object,
modelled here as the single field `sharedSettings`.  The Tk entry widgets
are separate strings, read only by `_collect_settings`. -/
structure AppRunState where
  entries : List String
  sharedSettings : ClickSettings
deriving DecidableEq, Repr

/-- Editing a Tk entry widget: changes only the entry strings; the
settings object of the active run is untouched (a fresh `ClickSettings`
is built from the entries only at the next `start`). -/
def setEntry (i : ℕ) (v : String) (st : AppRunState) : AppRunState :=
  { st with entries := st.entries.set i v }

/-- `AutoClickerApp._capture_cursor` (lines 471-476): assigns
`self.settings.fixed_position = position`, mutating in place the very
object the active run holds. -/
def captureCursor (pos : ℤ × ℤ) (st : AppRunState) : AppRunState :=
  { st with sharedSettings := { st.sharedSettings with fixed_position := pos } }

/-- `AutoClicker._get_target_position` (lines 242-251): the current cursor
position when `follow_cursor`, else the stored fixed position (re-read
from the settings object at every tick). -/
def getTargetPosition (cursor : ℤ × ℤ) (s : ClickSettings) : ℤ × ℤ :=
  if s.follow_cursor then cursor else s.fixed_position

/-! ## Theorems -/

/-- With cancellation never signalled and no duration limit, the loop of
`_run` performs exactly `burst_count` tick-actions (when positive) before
exiting, given enough fuel. -/
theorem runLoopAux_no_cancel_burst (s : ClickSettings) (el : ℕ → ℚ)
    (hdur : s.run_duration = 0) :
    ∀ fuel k c, c < s.burst_count → s.burst_count ≤ c + fuel →
      runLoopAux s (fun _ => false) el fuel k c = some s.burst_count := by
  intro fuel
  induction fuel with
  | zero => intro k c h1 h2; omega
  | succ n ih =>
    intro k c h1 h2
    have hd : ¬ (0 < s.run_duration ∧ s.run_duration ≤ el k) := by
      rw [hdur]; rintro ⟨hlt, _⟩; exact absurd hlt (by norm_num)
    by_cases hb : s.burst_count ≤ c + 1
    · have hpos : 0 < s.burst_count := by omega
      have hEq : c + 1 = s.burst_count := by omega
      simp [runLoopAux, hd, hpos, hb, hEq]
    · have hng : ¬ (0 < s.burst_count ∧ s.burst_count ≤ c + 1) := fun h => hb h.2
      simp only [runLoopAux, Bool.false_eq_true, if_false, if_neg hd, if_neg hng]
      exact ih (k + 1) (c + 1) (by omega) (by omega)

/-- C1: With `burst_count = N > 0`, `run_duration = 0` and the stop event
never set externally, a complete run performs exactly `N` tick-actions,
then on its own sets the stop event, flips `_is_running` to false (Idle)
and fires the stop callback once — no `stop` call required. -/
theorem run_burst_count_autostop (s : ClickSettings) (el : ℕ → ℚ) (N fuel : ℕ)
    (hN : 0 < N) (hb : s.burst_count = N) (hd : s.run_duration = 0) (hf : N ≤ fuel) :
    runFull s (fun _ => false) el fuel true = some ⟨N, true, false, 1⟩ := by
  have hloop : runLoopAux s (fun _ => false) el fuel 0 0 = some s.burst_count :=
    runLoopAux_no_cancel_burst s el hd fuel 0 0 (by omega) (by omega)
  rw [hb] at hloop
  rw [runFull, hloop]
  exact rfl

/-- Witness for C1: the spec's concrete scenario with
`burst_count = 3`, unlimited duration: exactly 3 ticks, then Idle with one
stop-callback invocation. -/
theorem run_burst_count_autostop_witness :
    runFull { burst_count := 3 } (fun _ => false) (fun _ => 0) 3 true =
      some ⟨3, true, false, 1⟩ :=
  run_burst_count_autostop { burst_count := 3 } (fun _ => 0) 3 3
    (by decide) rfl rfl (by decide)

/-- C7: Whenever the run loop exits — for any reason — the exit sequence
of `_run` sets the stop event, flips the state to Idle, and invokes the
registered stop callback exactly once. -/
theorem run_exit_quiesce (s : ClickSettings) (cancelled : ℕ → Bool) (el : ℕ → ℚ)
    (fuel : ℕ) (out : RunOutcome)
    (h : runFull s cancelled el fuel true = some out) :
    out.stopEventSet = true ∧ out.isRunning = false ∧ out.stopCallbackCalls = 1 := by
  rw [runFull] at h
  cases hl : runLoopAux s cancelled el fuel 0 0 with
  | none => rw [hl] at h; exact absurd h (by simp)
  | some c =>
    rw [hl] at h
    have hout : (⟨c, true, false, if true = true then 1 else 0⟩ : RunOutcome) = out :=
      Option.some.inj h
    rw [← hout]
    exact ⟨rfl, rfl, rfl⟩

/-- Witness for C7: a run cancelled before its first tick still quiesces:
stop event set, Idle, one stop-callback call. -/
theorem run_exit_quiesce_witness :
    runFull ({} : ClickSettings) (fun _ => true) (fun _ => 0) 1 true =
      some ⟨0, true, false, 1⟩ ∧
    ((⟨0, true, false, 1⟩ : RunOutcome).stopEventSet = true ∧
     (⟨0, true, false, 1⟩ : RunOutcome).isRunning = false ∧
     (⟨0, true, false, 1⟩ : RunOutcome).stopCallbackCalls = 1) :=
  ⟨rfl, run_exit_quiesce {} (fun _ => true) (fun _ => 0) 1 ⟨0, true, false, 1⟩ rfl⟩

/-- C2: When `start` is called in the Idle state and the settings provider
raises, the transition is rolled back: afterwards the scheduler is Idle,
no run thread has been spawned by the call, and the start callback has not
been invoked. -/
theorem start_provider_failure_rollback (s : Sched) (h : s.isRunning = false) :
    (start none s).isRunning = false ∧
    (start none s).threadSpawned = s.threadSpawned ∧
    (start none s).startCalls = s.startCalls := by
  simp [start, h]

/-- Witness for C2 on a concrete idle scheduler. -/
theorem start_provider_failure_rollback_witness :
    (⟨false, false, false, 0, 0⟩ : Sched).isRunning = false ∧
    ((start none ⟨false, false, false, 0, 0⟩).isRunning = false ∧
     (start none ⟨false, false, false, 0, 0⟩).threadSpawned =
       (⟨false, false, false, 0, 0⟩ : Sched).threadSpawned ∧
     (start none ⟨false, false, false, 0, 0⟩).startCalls =
       (⟨false, false, false, 0, 0⟩ : Sched).startCalls) :=
  ⟨rfl, start_provider_failure_rollback ⟨false, false, false, 0, 0⟩ rfl⟩

/-- C8: With a succeeding settings provider, `toggle` flips the
running/idle state (so it acts as `stop` when running and `start` when
idle, and Running to Idle to Idle is impossible), and two sequential
`toggle` calls restore the original running/idle state. -/
theorem toggle_twice_restores (cfg : ClickSettings) (s : Sched) :
    (toggle (some cfg) (toggle (some cfg) s)).isRunning = s.isRunning ∧
    (toggle (some cfg) s).isRunning = !s.isRunning := by
  cases hs : s.isRunning <;> simp [toggle, start, stop, hs]

/-- Witness for C8 on a concrete running scheduler. -/
theorem toggle_twice_restores_witness :
    (toggle (some {}) (toggle (some {}) ⟨true, false, true, 1, 0⟩)).isRunning =
      (⟨true, false, true, 1, 0⟩ : Sched).isRunning ∧
    (toggle (some {}) ⟨true, false, true, 1, 0⟩).isRunning =
      !(⟨true, false, true, 1, 0⟩ : Sched).isRunning :=
  toggle_twice_restores {} ⟨true, false, true, 1, 0⟩

/-- C3 counterexample: `update` with the start and stop chords both
normalizing to `"a"` is NOT rejected — it returns the new binding dict in
which the stop action has silently overwritten the start action under the
shared key, and the previous bindings are replaced, not retained. -/
theorem update_duplicate_not_rejected :
    update (fun _ => true) "a" "a" "b" =
      Except.ok [("a", HotkeyAction.stopAct), ("b", HotkeyAction.toggleAct)] ∧
    applyUpdate (fun _ => true) defaultBindings "a" "a" "b" ≠ defaultBindings := by
  refine ⟨rfl, ?_⟩
  intro hcontra
  have : ([("a", HotkeyAction.stopAct), ("b", HotkeyAction.toggleAct)] :
      List (String × HotkeyAction)).length = defaultBindings.length :=
    congrArg List.length hcontra
  simp [defaultBindings] at this

/-- A Python-dict assignment makes the assigned key map to the new
value. -/
theorem assocLookup_pyInsert_self {α : Type} (l : List (String × α)) (k : String)
    (v : α) : assocLookup (pyInsert l k v) k = some v := by
  induction l with
  | nil => simp [pyInsert, assocLookup]
  | cons hd tl ih =>
    obtain ⟨k', v'⟩ := hd
    by_cases h : k' = k
    · simp [pyInsert, assocLookup, h]
    · simp only [pyInsert, if_neg h, assocLookup, ih]

/-- A Python-dict assignment leaves every other key's value unchanged. -/
theorem assocLookup_pyInsert_ne {α : Type} (l : List (String × α)) (k key : String)
    (v : α) (h : k ≠ key) :
    assocLookup (pyInsert l k v) key = assocLookup l key := by
  induction l with
  | nil => simp [pyInsert, assocLookup, h]
  | cons hd tl ih =>
    obtain ⟨k', v'⟩ := hd
    by_cases hk : k' = k
    · subst hk
      simp [pyInsert, assocLookup, h]
    · simp only [pyInsert, if_neg hk, assocLookup, ih]

/-- C3 amended: when any two of the three chords normalize to the same
canonical key, `update` succeeds rather than raising; in the resulting
dict the shared key maps to the action of the later of the colliding
roles (stop shadows start; toggle shadows start or stop; with a triple
collision toggle wins), and the new dict wholesale replaces the previous
bindings. -/
theorem update_duplicate_shadows (V : String → Bool)
    (cur : List (String × HotkeyAction)) (sa sb sc k1 k2 k3 : String)
    (h1 : formatCombo V sa = Except.ok k1) (h2 : formatCombo V sb = Except.ok k2)
    (h3 : formatCombo V sc = Except.ok k3)
    (_hdup : k1 = k2 ∨ k1 = k3 ∨ k2 = k3) :
    ∃ b, update V sa sb sc = Except.ok b ∧
      applyUpdate V cur sa sb sc = b ∧
      (k1 = k2 → assocLookup b k1 =
        some (if k3 = k1 then HotkeyAction.toggleAct else HotkeyAction.stopAct)) ∧
      (k1 = k3 → assocLookup b k1 = some HotkeyAction.toggleAct) ∧
      (k2 = k3 → assocLookup b k2 = some HotkeyAction.toggleAct) := by
  have hu : update V sa sb sc = Except.ok (pyInsert (pyInsert
      (pyInsert [] k1 HotkeyAction.startAct) k2 HotkeyAction.stopAct)
      k3 HotkeyAction.toggleAct) := by
    rw [update, h1, h2, h3]
  refine ⟨_, hu, by rw [applyUpdate, hu], ?_, ?_, ?_⟩
  · intro h12
    by_cases h31 : k3 = k1
    · rw [if_pos h31, ← h31]
      exact assocLookup_pyInsert_self _ k3 _
    · rw [if_neg h31, assocLookup_pyInsert_ne _ k3 k1 _ (fun h => h31 h), h12,
        assocLookup_pyInsert_self]
  · intro h13
    rw [h13, assocLookup_pyInsert_self]
  · intro h23
    rw [h23, assocLookup_pyInsert_self]

/-- Witness for the amended C3: the spec's concrete scenario
`Configure("a", "a", "b")`, a start/stop collision. -/
theorem update_duplicate_shadows_witness :
    (formatCombo (fun _ => true) "a" = Except.ok "a" ∧
     formatCombo (fun _ => true) "b" = Except.ok "b" ∧
     (("a" : String) = "a" ∨ ("a" : String) = "b" ∨ ("a" : String) = "b")) ∧
    (∃ b, update (fun _ => true) "a" "a" "b" = Except.ok b ∧
      applyUpdate (fun _ => true) defaultBindings "a" "a" "b" = b ∧
      (("a" : String) = "a" → assocLookup b "a" =
        some (if ("b" : String) = "a" then HotkeyAction.toggleAct
          else HotkeyAction.stopAct)) ∧
      (("a" : String) = "b" → assocLookup b "a" = some HotkeyAction.toggleAct) ∧
      (("a" : String) = "b" → assocLookup b "a" = some HotkeyAction.toggleAct)) :=
  ⟨⟨rfl, rfl, Or.inl rfl⟩,
   update_duplicate_shadows (fun _ => true) defaultBindings "a" "a" "b" "a" "a" "b"
     rfl rfl rfl (Or.inl rfl)⟩

/-- C6: If any of the three chord strings fails to parse, the whole
`update` raises and `current_bindings` is left exactly as before the call
— never a partially-applied set. -/
theorem update_all_or_nothing (V : String → Bool)
    (cur : List (String × HotkeyAction)) (a b c : String)
    (h : (∃ e, formatCombo V a = Except.error e) ∨
         (∃ e, formatCombo V b = Except.error e) ∨
         (∃ e, formatCombo V c = Except.error e)) :
    (∃ e, update V a b c = Except.error e) ∧ applyUpdate V cur a b c = cur := by
  have hu : ∃ e, update V a b c = Except.error e := by
    rcases h with ⟨e, he⟩ | ⟨e, he⟩ | ⟨e, he⟩
    · exact ⟨e, by rw [update, he]⟩
    · cases hfa : formatCombo V a with
      | error e1 => exact ⟨e1, by rw [update, hfa]⟩
      | ok f1 => exact ⟨e, by rw [update, hfa, he]⟩
    · cases hfa : formatCombo V a with
      | error e1 => exact ⟨e1, by rw [update, hfa]⟩
      | ok f1 =>
        cases hfb : formatCombo V b with
        | error e2 => exact ⟨e2, by rw [update, hfa, hfb]⟩
        | ok f2 => exact ⟨e, by rw [update, hfa, hfb, he]⟩
  obtain ⟨e, he⟩ := hu
  exact ⟨⟨e, he⟩, by rw [applyUpdate, he]⟩

/-- Witness for C6: an empty start chord fails to parse; the default
bindings survive the call untouched. -/
theorem update_all_or_nothing_witness :
    ((∃ e, formatCombo (fun _ => true) "" = Except.error e) ∨
     (∃ e, formatCombo (fun _ => true) "x" = Except.error e) ∨
     (∃ e, formatCombo (fun _ => true) "x" = Except.error e)) ∧
    ((∃ e, update (fun _ => true) "" "x" "x" = Except.error e) ∧
     applyUpdate (fun _ => true) defaultBindings "" "x" "x" = defaultBindings) :=
  ⟨Or.inl ⟨"Hotkey cannot be empty", rfl⟩,
   update_all_or_nothing (fun _ => true) defaultBindings "" "x" "x"
     (Or.inl ⟨"Hotkey cannot be empty", rfl⟩)⟩

/-- C4 counterexample: `_capture_cursor` mutates the very settings object
the active run holds, so with `follow_cursor = false` the current run's
target position changes mid-run — refuting the claim that changing the
fixed position while running has no effect on the current run. -/
theorem capture_cursor_affects_current_run :
    getTargetPosition (0, 0)
        ((captureCursor (30, 40)
          ⟨[], { follow_cursor := false, fixed_position := (10, 20) }⟩).sharedSettings) ≠
      getTargetPosition (0, 0)
        ((⟨[], { follow_cursor := false, fixed_position := (10, 20) }⟩ :
          AppRunState).sharedSettings) := by
  decide

/-- C4 amended: while a run is active, edits to the Tk entry widgets have
no effect on the run's settings object (it is re-read only at the next
`start`), but `_capture_cursor` writes the new fixed position into the
shared settings object, so the current run's target (in fixed-position
mode) becomes the newly captured position immediately. -/
theorem settings_aliasing (st : AppRunState) (pos cursor : ℤ × ℤ) (i : ℕ)
    (v : String) (hf : st.sharedSettings.follow_cursor = false) :
    getTargetPosition cursor ((captureCursor pos st).sharedSettings) = pos ∧
    (setEntry i v st).sharedSettings = st.sharedSettings ∧
    getTargetPosition cursor st.sharedSettings = st.sharedSettings.fixed_position := by
  refine ⟨?_, rfl, ?_⟩ <;> simp [captureCursor, getTargetPosition, hf]

/-- Witness for the amended C4 at a concrete mid-run state. -/
theorem settings_aliasing_witness :
    (⟨["0.1"], { follow_cursor := false, fixed_position := (10, 20) }⟩ :
        AppRunState).sharedSettings.follow_cursor = false ∧
    (getTargetPosition (0, 0)
        ((captureCursor (30, 40)
          ⟨["0.1"], { follow_cursor := false, fixed_position := (10, 20) }⟩).sharedSettings) =
        (30, 40) ∧
     (setEntry 0 "7"
        ⟨["0.1"], { follow_cursor := false, fixed_position := (10, 20) }⟩).sharedSettings =
        (⟨["0.1"], { follow_cursor := false, fixed_position := (10, 20) }⟩ :
          AppRunState).sharedSettings ∧
     getTargetPosition (0, 0)
        (⟨["0.1"], { follow_cursor := false, fixed_position := (10, 20) }⟩ :
          AppRunState).sharedSettings =
        (⟨["0.1"], { follow_cursor := false, fixed_position := (10, 20) }⟩ :
          AppRunState).sharedSettings.fixed_position) :=
  ⟨rfl, settings_aliasing ⟨["0.1"], { follow_cursor := false, fixed_position := (10, 20) }⟩
    (30, 40) (0, 0) 0 "7" rfl⟩

/-- The polling wait never sleeps past its deadline. -/
theorem pollWait_le_deadline (cancelled : ℕ → Bool) :
    ∀ remaining t, pollWait cancelled remaining t ≤ t + remaining := by
  intro remaining
  induction remaining with
  | zero => intro t; simp [pollWait]
  | succ n ih =>
    intro t
    by_cases hc : cancelled t = true
    · simp [pollWait, hc]
    · simp only [pollWait, if_neg hc]
      calc pollWait cancelled n (t + 1) ≤ t + 1 + n := ih (t + 1)
        _ ≤ t + (n + 1) := by omega

/-- The polling wait exits no later than any time at which the
cancellation signal is set. -/
theorem pollWait_le_cancel_time (cancelled : ℕ → Bool) (t0 : ℕ)
    (h : cancelled t0 = true) :
    ∀ remaining t, t ≤ t0 → pollWait cancelled remaining t ≤ t0 := by
  intro remaining
  induction remaining with
  | zero => intro t ht; simpa [pollWait] using ht
  | succ n ih =>
    intro t ht
    by_cases hc : cancelled t = true
    · simpa [pollWait, hc] using ht
    · have htlt : t < t0 := by
        rcases Nat.lt_or_ge t t0 with hlt | hge
        · exact hlt
        · exact absurd (le_antisymm ht hge ▸ h) hc
      simp only [pollWait, if_neg hc]
      exact ih (t + 1) htlt

/-- C5 counterexample: with the cancellation signal set from time 0, the
inter-tick/hold polling wait exits immediately, but the start-delay wait
(`time.sleep(settings.start_delay)`) still sleeps its full 100 ms — far
beyond the polling increment — so not all three suspension points are
cancellation-interruptible. -/
theorem start_delay_not_interruptible :
    pollWait (fun _ => true) 100 0 = 0 ∧
    startDelayWait (fun _ => true) 100 = 100 ∧
    ¬ startDelayWait (fun _ => true) 100 ≤ 1 := by
  refine ⟨?_, rfl, by decide⟩
  simp [pollWait]

/-- C5 amended: the inter-tick wait and the hold-duration wait both use
the 1 ms polling loop, so they exit by the time cancellation is signalled
and never past their deadline; the start-delay wait, by contrast, is a
single uninterruptible sleep that always lasts the full configured
duration. -/
theorem wait_interruptibility (cancelled : ℕ → Bool) (d t0 : ℕ)
    (h : cancelled t0 = true) :
    pollWait cancelled d 0 ≤ t0 ∧ pollWait cancelled d 0 ≤ d ∧
    startDelayWait cancelled d = d :=
  ⟨pollWait_le_cancel_time cancelled t0 h d 0 (Nat.zero_le t0),
   by simpa using pollWait_le_deadline cancelled d 0, rfl⟩

/-- Witness for the amended C5: cancellation arrives at 3 ms into a 10 ms
wait. -/
theorem wait_interruptibility_witness :
    (fun t => decide (3 ≤ t)) 3 = true ∧
    (pollWait (fun t => decide (3 ≤ t)) 10 0 ≤ 3 ∧
     pollWait (fun t => decide (3 ≤ t)) 10 0 ≤ 10 ∧
     startDelayWait (fun t => decide (3 ≤ t)) 10 = 10) :=
  ⟨by decide, wait_interruptibility (fun t => decide (3 ≤ t)) 10 3 (by decide)⟩

/-- C9 counterexample: with `interval = 2 ms` (legal after the 1 ms
capture-time clamp), jitter enabled and a zero offset, the code's tick
wait is re-clamped to the 5 ms floor of line 186, not to the 1 ms epsilon
the spec names: the computed wait is 5 ms where the spec's formula gives
2 ms. -/
theorem tick_wait_clamp_differs :
    tickWait { interval := 2/1000, randomize := true, random_range := 1/1000 } 0 =
      5/1000 ∧
    specTickWait { interval := 2/1000, randomize := true, random_range := 1/1000 } 0 =
      2/1000 ∧
    tickWait { interval := 2/1000, randomize := true, random_range := 1/1000 } 0 ≠
      specTickWait { interval := 2/1000, randomize := true, random_range := 1/1000 } 0 := by
  refine ⟨?_, ?_, ?_⟩ <;> norm_num [tickWait, specTickWait]

/-- C9 amended: the interval is clamped to the 1 ms epsilon at
snapshot-capture time; with jitter enabled the per-tick wait is
`interval + offset` re-clamped to a 5 ms floor (not the 1 ms epsilon);
consequently the computed wait is never below the 1 ms epsilon. -/
theorem tick_wait_floors (raw : ℚ) (s : ClickSettings) (offset : ℚ)
    (h : 1/1000 ≤ s.interval) :
    1/1000 ≤ clampInterval raw ∧
    1/1000 ≤ tickWait s offset ∧
    (s.randomize = true → 0 < s.random_range →
      tickWait s offset = max (5/1000) (s.interval + offset)) := by
  refine ⟨le_max_left _ _, ?_, ?_⟩
  · rw [tickWait]
    split
    · exact le_trans (by norm_num) (le_max_left _ _)
    · exact h
  · intro h1 h2
    rw [tickWait, if_pos ⟨h1, h2⟩]

/-- Witness for the amended C9 at the counterexample's configuration. -/
theorem tick_wait_floors_witness :
    (1/1000 : ℚ) ≤
      ({ interval := 2/1000, randomize := true, random_range := 1/1000 } :
        ClickSettings).interval ∧
    (1/1000 ≤ clampInterval 0 ∧
     1/1000 ≤ tickWait { interval := 2/1000, randomize := true, random_range := 1/1000 } 0 ∧
     (({ interval := 2/1000, randomize := true, random_range := 1/1000 } :
         ClickSettings).randomize = true →
       0 < ({ interval := 2/1000, randomize := true, random_range := 1/1000 } :
         ClickSettings).random_range →
       tickWait { interval := 2/1000, randomize := true, random_range := 1/1000 } 0 =
         max (5/1000)
           (({ interval := 2/1000, randomize := true, random_range := 1/1000 } :
             ClickSettings).interval + 0))) :=
  ⟨by norm_num,
   tick_wait_floors 0 { interval := 2/1000, randomize := true, random_range := 1/1000 } 0
     (by norm_num)⟩

/-- C10: `_perform_click` raises `ValueError` when the button is not one
of left/right/middle, but an unknown `click_type` does not fail: the
multiplier lookup defaults to 1 and exactly one occurrence is
performed. -/
theorem perform_click_button_strict_click_type_lenient (s : ClickSettings) :
    (s.button ≠ "left" ∧ s.button ≠ "right" ∧ s.button ≠ "middle" →
      ∃ e, performClick s = Except.error e) ∧
    (s.button = "left" ∨ s.button = "right" ∨ s.button = "middle" →
      s.click_type ≠ "single" ∧ s.click_type ≠ "double" ∧ s.click_type ≠ "triple" →
      performClick s = Except.ok 1) := by
  constructor
  · rintro ⟨h1, h2, h3⟩
    have hl : assocLookup BUTTON_EVENT_MAP s.button = none := by
      simp [assocLookup, BUTTON_EVENT_MAP, Ne.symm h1, Ne.symm h2, Ne.symm h3]
    exact ⟨"Unsupported button " ++ s.button, by rw [performClick, hl]⟩
  · rintro hmem ⟨k1, k2, k3⟩
    have hm : assocLookup CLICK_MULTIPLIER s.click_type = none := by
      simp [assocLookup, CLICK_MULTIPLIER, Ne.symm k1, Ne.symm k2, Ne.symm k3]
    rcases hmem with h | h | h <;>
      · rw [performClick, h]
        simp [assocLookup, BUTTON_EVENT_MAP, CLICK_MULTIPLIER,
          Ne.symm k1, Ne.symm k2, Ne.symm k3]

/-- Witness for C10: an unknown button raises; a known button with an
unknown click type performs one occurrence. -/
theorem perform_click_witness :
    (∃ e, performClick { button := "chaos", click_type := "quad" } = Except.error e) ∧
    performClick { button := "left", click_type := "quad" } = Except.ok 1 :=
  ⟨(perform_click_button_strict_click_type_lenient
      { button := "chaos", click_type := "quad" }).1
      ⟨by decide, by decide, by decide⟩,
   (perform_click_button_strict_click_type_lenient
      { button := "left", click_type := "quad" }).2
      (Or.inl rfl) ⟨by decide, by decide, by decide⟩⟩

end AutoClicker
